import Mathlib

/-!
Verification of the MCP_Bootcamp repository's core client and server logic.

The main artifacts modelled here are:
* `src/MCP/clients/mcp_clients/langchain_mcp_lient.py` — the session loop
  (`run_agent`), its one-shot and interactive modes, the rate-limit error
  classification, the response serialization fallback, and the custom JSON
  encoder (`CustomEncoder.default`);
* `src/MCP/servers/terminal_server/app.py` — the filesystem tool's path
  containment (`_safe_path`) and the `create_file` tool.

Python strings are modelled by Lean `String`; `str.strip` / `str.lower` /
the `in` substring test are given explicit ASCII models below so that all
definitions evaluate in the kernel.
-/

/-- ASCII whitespace, the characters stripped by Python `str.strip()`. -/
def isSpaceChar (c : Char) : Bool :=
  c = ' ' || c = '\t' || c = '\n' || c = '\r' || c = '\x0b' || c = '\x0c'

/-- Model of Python `str.strip()`: drop leading and trailing whitespace. -/
def strStrip (s : String) : String :=
  ⟨((s.toList.dropWhile isSpaceChar).reverse.dropWhile isSpaceChar).reverse⟩

/-- ASCII lowering of one character (model of `str.lower` on the ASCII range). -/
def lowerChar (c : Char) : Char :=
  if 65 ≤ c.toNat ∧ c.toNat ≤ 90 then Char.ofNat (c.toNat + 32) else c

/-- Model of Python `str.lower()`. -/
def strLower (s : String) : String :=
  ⟨s.toList.map lowerChar⟩

/-- Does `s` start with the pattern `p`? -/
def startsWithChars : List Char → List Char → Bool
  | _, [] => true
  | [], _ :: _ => false
  | c :: cs, p :: ps => c = p && startsWithChars cs ps

/-- Does the pattern occur as a contiguous run inside the list? -/
def hasSubChars : List Char → List Char → Bool
  | [], pat => pat.isEmpty
  | c :: rest, pat => startsWithChars (c :: rest) pat || hasSubChars rest pat

/-- Model of the Python substring test `pat in s`. -/
def strContains (s pat : String) : Bool :=
  hasSubChars s.toList pat.toList

/-! ## Session Loop (`run_agent`, langchain_mcp_lient.py lines 120–190)

The loop is modelled as a trace semantics: a run produces the ordered list
of observable events (prompts read, agent dispatches, printed output) and
an outcome (clean exit, or an exception escaping `run_agent`, which ends
the Python process with a non-zero status).

The Agent (`agent.ainvoke`) is an external collaborator: it is a parameter
`agent : String → Except String R`, returning either a response value or
the textual form `str(e)` of a raised exception.  `json.dumps … cls=CustomEncoder`
is a parameter `dumps : R → Option String` (`none` models a raised
serialization error); `str(response)` is a parameter `toStr : R → String`.
-/

/-- One observable event of the session loop. -/
inductive Event where
  /-- The "MCP Client Started!" banner (line 154). -/
  | printStarted
  /-- One `input("\nQuery: ")` read from the interactive prompt (line 157). -/
  | prompt
  /-- The "EOF received. Exiting." message (line 160). -/
  | printEOF
  /-- One `agent.ainvoke({"messages": query})` dispatch (lines 146 and 166). -/
  | dispatch (query : String)
  /-- The Groq rate-limit/quota advisory (lines 170–174). -/
  | printAdvisory
  /-- One printed (formatted) agent response (lines 151 and 182–183). -/
  | printOut (s : String)
  /-- Session teardown: the `async with` stack unwinds, closing the channel
      and terminating the child process. -/
  | close
deriving DecidableEq

/-- How the Python process ends: clean exit (status 0), or an exception
escaping `run_agent` (uncaught, status 1). -/
inductive Outcome where
  | exit0
  | uncaught (msg : String)
deriving DecidableEq

/-- The process exit status produced by an outcome. -/
def Outcome.exitCode : Outcome → Nat
  | .exit0 => 0
  | .uncaught _ => 1

/-- Line 169: `"429" in msg or "rate limit" in msg.lower() or "quota" in msg.lower()`. -/
def isRateLimitMsg (msg : String) : Bool :=
  strContains msg "429" || strContains (strLower msg) "rate limit" ||
    strContains (strLower msg) "quota"

/-- Lines 147–150 / 178–181: `try: json.dumps(...) except: str(response)`.
Serialization failure degrades to the plain string rendering. -/
def formatResponse {R : Type} (dumps : R → Option String) (toStr : R → String)
    (r : R) : String :=
  match dumps r with
  | some s => s
  | none => toStr r

/-- The interactive `while True` loop (lines 155–183), driven by the list of
lines the input source will yield; exhausting the list models `EOFError`. -/
def interactiveLoop {R : Type} (agent : String → Except String R)
    (dumps : R → Option String) (toStr : R → String) :
    List String → List Event × Outcome
  | [] => ([Event.prompt, Event.printEOF], Outcome.exit0)
  | line :: rest =>
    let query := strStrip line
    if strLower query = "quit" then
      ([Event.prompt], Outcome.exit0)
    else
      match agent query with
      | Except.error e =>
        if isRateLimitMsg e then
          let next := interactiveLoop agent dumps toStr rest
          (Event.prompt :: Event.dispatch query :: Event.printAdvisory :: next.1,
           next.2)
        else
          ([Event.prompt, Event.dispatch query], Outcome.uncaught e)
      | Except.ok r =>
        let next := interactiveLoop agent dumps toStr rest
        (Event.prompt :: Event.dispatch query ::
           Event.printOut (formatResponse dumps toStr r) :: next.1,
         next.2)

/-- `run_agent` (lines 120–184) after the session is opened, initialized and
tools are loaded: the one-shot branch (lines 143–152) when `--once` was
given, otherwise the interactive loop.  On every path — normal return,
`break`, or a propagating exception — the two `async with` blocks unwind,
appending the `close` teardown event. -/
def runAgent {R : Type} (onceArg : Option String)
    (agent : String → Except String R) (dumps : R → Option String)
    (toStr : R → String) (inputs : List String) : List Event × Outcome :=
  let body :=
    match onceArg with
    | some once =>
      let query := strStrip once
      if query = "" then ([], Outcome.exit0)
      else
        match agent query with
        | Except.error e => ([Event.dispatch query], Outcome.uncaught e)
        | Except.ok r =>
          ([Event.dispatch query, Event.printOut (formatResponse dumps toStr r)],
           Outcome.exit0)
    | none =>
      let next := interactiveLoop agent dumps toStr inputs
      (Event.printStarted :: next.1, next.2)
  (body.1 ++ [Event.close], body.2)

/-! ## Session teardown (`close`)

The channel/child-process teardown itself lives in the external `mcp`
library (`stdio_client.__aexit__`, `ClientSession.__aexit__`), not under
the repository's sources; only its invocation sites (the `async with`
blocks of `run_agent`) are in the repository. -/

/-- A session's resource state: whether the stdio channel is open and
whether the child tool-server process is still running. -/
structure SessState where
  channelOpen : Bool
  childRunning : Bool
deriving DecidableEq

/-- Modelled from the spec: the session `close()` performed by the `mcp`
library's context managers (absent from src) — closes the write/read
channel and terminates the child process. -/
def SessState.close (_ : SessState) : SessState :=
  { channelOpen := false, childRunning := false }

/-! ## CustomEncoder (`langchain_mcp_lient.py` lines 61–71) -/

/-- A Python object as seen by `CustomEncoder.default`: its class name and,
when the object has a `content` attribute, that attribute's payload
(of an arbitrary payload type `C`). -/
structure PyObj (C : Type) where
  className : String
  content : Option C

/-- A value produced while JSON-encoding: a string, or an opaque payload
carried through unchanged. -/
inductive EncVal (C : Type) where
  | str (s : String)
  | payload (c : C)

/-- What one `default` call produces: a dict (ordered key/value fields), or
whatever the base class `json.JSONEncoder.default` produced. -/
inductive EncOut (C : Type) where
  | dict (fields : List (String × EncVal C))
  | fromSuper (o : EncOut C) : EncOut C

/-- `CustomEncoder.default` (lines 68–71): if the object has a `content`
attribute, return `{"type": type(o).__name__, "content": o.content}`;
otherwise delegate to the base encoder's `default` (an external-library
parameter `superDefault`). -/
def CustomEncoder.default {C : Type} (superDefault : PyObj C → EncOut C)
    (o : PyObj C) : EncOut C :=
  match o.content with
  | some c =>
    EncOut.dict [("type", EncVal.str o.className), ("content", EncVal.payload c)]
  | none => superDefault o

/-! ## Terminal server filesystem tool (`terminal_server/app.py`)

Filesystem paths are modelled as lists of components of a resolved
absolute path (the filesystem root `/` is `[]`).  `Path.resolve()` is
modelled as lexical normalization of `.`/`..`/empty components — symlinks
are outside the model.  A user-supplied path carries its raw text (used in
messages), whether it is absolute (a leading `/`, which makes `root / p`
discard `root`), and its components. -/

abbrev FsPath := List String

/-- A user-supplied path argument, as `pathlib` parses it. -/
structure RelInput where
  raw : String
  absolute : Bool
  comps : List String

/-- Lexical normalization performed by `Path.resolve()`: starting from the
already-resolved components `acc`, fold in the remaining components,
skipping `.`/empty and popping one level on `..` (at `/`, `..` stays). -/
def resolveComps : List String → List String → List String
  | acc, [] => acc
  | acc, c :: cs =>
    if c = "" ∨ c = "." then resolveComps acc cs
    else if c = ".." then resolveComps acc.dropLast cs
    else resolveComps (acc ++ [c]) cs

/-- `Path.parents` of a resolved path: every proper ancestor, i.e. every
proper component-list prefix down to the filesystem root. -/
def pathParents (p : FsPath) : List FsPath :=
  (List.range p.length).map fun k => p.take k

/-- `_safe_path` (app.py lines 16–25): resolve `root / relative_path` and
reject the result unless it is the workspace root or lies under it. -/
def safePath (root : FsPath) (rel : RelInput) : Except String FsPath :=
  let target := resolveComps (if rel.absolute then [] else root) rel.comps
  if root ∉ pathParents target ∧ target ≠ root then
    Except.error ("Path must be under workspace: " ++ String.intercalate "/" root)
  else
    Except.ok target

/-- The files of the workspace: resolved path ↦ text content (directories
are not tracked; `mkdir` only affects directories, so it is identity on
this map). -/
abbrev FileSys := FsPath → Option String

/-- `create_file` (app.py lines 46–59): resolve the target safely, refuse to
replace an existing file unless `overwrite`, otherwise write the content.
Any raised error is caught and returned as its message (`str(e)`).
Returns the updated file map and the tool's textual result. -/
def create_file (root : FsPath) (fs : FileSys) (filename : RelInput)
    (content : String) (overwrite : Bool) : FileSys × String :=
  match safePath root filename with
  | Except.error e => (fs, e)
  | Except.ok path =>
    if (fs path).isSome && !overwrite then
      (fs, "File already exists: " ++ filename.raw ++
        " (set overwrite=true to replace)")
    else
      ((fun p => if p = path then some content else fs p),
       "Created: " ++ filename.raw)

/-- Recognizer for `Event.dispatch` events. -/
def Event.isDispatchEv : Event → Bool
  | .dispatch _ => true
  | _ => false

/-- Recognizer for `Event.prompt` events. -/
def Event.isPromptEv : Event → Bool
  | .prompt => true
  | _ => false

/-- Recognizer for `Event.printOut` events. -/
def Event.isPrintOutEv : Event → Bool
  | .printOut _ => true
  | _ => false

/-- Recognizer for `Event.close` events. -/
def Event.isCloseEv : Event → Bool
  | .close => true
  | _ => false

/-! ## Helper lemmas -/

theorem isCloseEv_eq_true_iff (a : Event) :
    Event.isCloseEv a = true ↔ a = Event.close := by
  cases a <;> simp [Event.isCloseEv]

theorem pathParents_mem {q p : FsPath} (h : q ∈ pathParents p) :
    ∃ s, s ≠ [] ∧ p = q ++ s := by
  simp only [pathParents, List.mem_map, List.mem_range] at h
  obtain ⟨k, hk, rfl⟩ := h
  refine ⟨p.drop k, ?_, (List.take_append_drop k p).symm⟩
  intro hnil
  have := List.drop_eq_nil_iff.mp hnil
  omega

theorem close_not_mem_interactiveLoop {R : Type}
    (agent : String → Except String R) (dumps : R → Option String)
    (toStr : R → String) (inputs : List String) :
    Event.close ∉ (interactiveLoop agent dumps toStr inputs).1 := by
  induction inputs with
  | nil => simp [interactiveLoop]
  | cons line rest ih =>
    simp only [interactiveLoop]
    split
    · simp
    · split
      · split
        · simp [ih]
        · simp
      · simp [ih]

/-! ## Theorems about the claims -/

/-- C5: for any message entry exposing a content payload,
`CustomEncoder.default` emits exactly the two-field record
`{"type": <class name>, "content": <payload>}`; for an entry without a
`content` attribute it falls back to the base encoder's default. -/
theorem custom_encoder_content_record {C : Type}
    (superDefault : PyObj C → EncOut C) (o : PyObj C) :
    (∀ c, o.content = some c →
      CustomEncoder.default superDefault o =
        EncOut.dict [("type", EncVal.str o.className),
                     ("content", EncVal.payload c)])
    ∧ (o.content = none →
      CustomEncoder.default superDefault o = superDefault o) := by
  constructor
  · intro c hc
    simp [CustomEncoder.default, hc]
  · intro hc
    simp [CustomEncoder.default, hc]

/-- Witness for C5 at a concrete entry with a content payload and a
concrete entry without one. -/
theorem custom_encoder_content_record_witness :
    CustomEncoder.default (fun _ => (EncOut.dict [] : EncOut String))
        ⟨"AIMessage", some "hello"⟩ =
      EncOut.dict [("type", EncVal.str "AIMessage"),
                   ("content", EncVal.payload "hello")]
    ∧ CustomEncoder.default (fun _ => (EncOut.dict [] : EncOut String))
        ⟨"Blob", none⟩ = EncOut.dict [] :=
  ⟨(custom_encoder_content_record _ _).1 "hello" rfl,
   (custom_encoder_content_record _ _).2 rfl⟩

/-- C7: whenever `_safe_path` returns a resolved path, that path is the
workspace root itself or lies strictly under it (root ++ a nonempty
suffix); escaping paths are rejected with an error instead. -/
theorem safe_path_containment (root : FsPath) (rel : RelInput) (t : FsPath)
    (h : safePath root rel = Except.ok t) :
    t = root ∨ ∃ s, s ≠ [] ∧ t = root ++ s := by
  simp only [safePath] at h
  by_cases hc :
      root ∉ pathParents (resolveComps (if rel.absolute then [] else root) rel.comps)
      ∧ resolveComps (if rel.absolute then [] else root) rel.comps ≠ root
  · rw [if_pos hc] at h
    exact absurd h (by simp)
  · rw [if_neg hc] at h
    obtain rfl := Except.ok.inj h
    rcases not_and_or.mp hc with h1 | h2
    · exact Or.inr (pathParents_mem (not_not.mp h1))
    · exact Or.inl (not_ne_iff.mp h2)

/-- Witness for C7: a benign relative path resolves under the root, and a
`../` traversal input is rejected. -/
theorem safe_path_containment_witness :
    safePath ["home", "ws"] ⟨"a.txt", false, ["a.txt"]⟩ =
      Except.ok ["home", "ws", "a.txt"]
    ∧ (["home", "ws", "a.txt"] = ["home", "ws"]
        ∨ ∃ s, s ≠ [] ∧ ["home", "ws", "a.txt"] = ["home", "ws"] ++ s)
    ∧ safePath ["home", "ws"] ⟨"../../etc/passwd", false, ["..", "..", "etc", "passwd"]⟩ =
        Except.error "Path must be under workspace: home/ws" :=
  ⟨rfl,
   safe_path_containment ["home", "ws"] ⟨"a.txt", false, ["a.txt"]⟩
     ["home", "ws", "a.txt"] rfl,
   rfl⟩

/-- C9: calling `create_file` on an existing file with `overwrite = false`
returns the "File already exists" message and leaves the file map — in
particular the existing file's content — unchanged. -/
theorem create_file_no_overwrite (root : FsPath) (fs : FileSys)
    (rel : RelInput) (content : String) (p : FsPath) (c : String)
    (hp : safePath root rel = Except.ok p) (hex : fs p = some c) :
    create_file root fs rel content false =
      (fs, "File already exists: " ++ rel.raw ++
        " (set overwrite=true to replace)") := by
  simp [create_file, hp, hex]

/-- Witness for C9 at a concrete workspace with one existing file. -/
theorem create_file_no_overwrite_witness :
    safePath ["home", "ws"] ⟨"a.txt", false, ["a.txt"]⟩ =
      Except.ok ["home", "ws", "a.txt"]
    ∧ (fun p => if p = ["home", "ws", "a.txt"] then some "old" else none)
        ["home", "ws", "a.txt"] = some "old"
    ∧ create_file ["home", "ws"]
        (fun p => if p = ["home", "ws", "a.txt"] then some "old" else none)
        ⟨"a.txt", false, ["a.txt"]⟩ "new" false =
      ((fun p => if p = ["home", "ws", "a.txt"] then some "old" else none),
       "File already exists: " ++ "a.txt" ++ " (set overwrite=true to replace)") :=
  ⟨rfl, rfl,
   create_file_no_overwrite ["home", "ws"]
     (fun p => if p = ["home", "ws", "a.txt"] then some "old" else none)
     ⟨"a.txt", false, ["a.txt"]⟩ "new" ["home", "ws", "a.txt"] "old" rfl rfl⟩

/-- C1: in interactive mode, when a dispatch raises an error whose text
contains "429", or "rate limit" / "quota" case-insensitively, the loop
prints the advisory and continues exactly as it would on the remaining
input (returns to awaiting the next query); when the text contains none of
the markers, the run terminates with the error uncaught and a non-zero
exit status. -/
theorem interactive_error_classification {R : Type}
    (agent : String → Except String R) (dumps : R → Option String)
    (toStr : R → String) (line : String) (rest : List String) (e : String)
    (hq : strLower (strStrip line) ≠ "quit")
    (he : agent (strStrip line) = Except.error e) :
    ((strContains e "429" = true ∨ strContains (strLower e) "rate limit" = true
        ∨ strContains (strLower e) "quota" = true) →
      runAgent none agent dumps toStr (line :: rest) =
        ((Event.printStarted :: Event.prompt :: Event.dispatch (strStrip line) ::
            Event.printAdvisory :: (interactiveLoop agent dumps toStr rest).1)
          ++ [Event.close],
         (interactiveLoop agent dumps toStr rest).2))
    ∧ ((strContains e "429" = false ∧ strContains (strLower e) "rate limit" = false
        ∧ strContains (strLower e) "quota" = false) →
      runAgent none agent dumps toStr (line :: rest) =
        ([Event.printStarted, Event.prompt, Event.dispatch (strStrip line),
          Event.close], Outcome.uncaught e)
      ∧ (runAgent none agent dumps toStr (line :: rest)).2.exitCode ≠ 0) := by
  constructor
  · intro hm
    have hrl : isRateLimitMsg e = true := by
      simp only [isRateLimitMsg, Bool.or_eq_true]
      rcases hm with h | h | h
      · exact Or.inl (Or.inl h)
      · exact Or.inl (Or.inr h)
      · exact Or.inr h
    simp [runAgent, interactiveLoop, hq, he, hrl]
  · intro hm
    have hrl : isRateLimitMsg e = false := by
      simp [isRateLimitMsg, hm.1, hm.2.1, hm.2.2]
    constructor
    · simp [runAgent, interactiveLoop, hq, he, hrl]
    · simp [runAgent, interactiveLoop, hq, he, hrl, Outcome.exitCode]

/-- Witness for C1 at a concrete "429" error in interactive mode. -/
theorem interactive_error_classification_witness :
    strLower (strStrip "hi") ≠ "quit"
    ∧ strContains "429" "429" = true
    ∧ runAgent none (fun _ => (Except.error "429" : Except String Unit))
        (fun _ => none) (fun _ => "") ["hi"] =
      ((Event.printStarted :: Event.prompt :: Event.dispatch (strStrip "hi") ::
          Event.printAdvisory ::
          (interactiveLoop (fun _ => (Except.error "429" : Except String Unit))
            (fun _ => none) (fun _ => "") []).1) ++ [Event.close],
       (interactiveLoop (fun _ => (Except.error "429" : Except String Unit))
          (fun _ => none) (fun _ => "") []).2) :=
  ⟨by decide, by decide,
   (interactive_error_classification (fun _ => Except.error "429")
      (fun _ => none) (fun _ => "") "hi" [] "429" (by decide) rfl).1
     (Or.inl (by decide))⟩

/-- C2 counterexample: in one-shot mode a rate-limit error ("429 rate
limit exceeded" matches the transient markers) is NOT caught at the
Session Loop boundary — the run ends with the error uncaught, refuting the
claim that the query "fails gracefully". -/
theorem one_shot_rate_limit_uncaught :
    isRateLimitMsg "429 rate limit exceeded" = true
    ∧ runAgent (some " hi ")
        (fun _ => (Except.error "429 rate limit exceeded" : Except String Unit))
        (fun _ => some "x") (fun _ => "x") [] =
      ([Event.dispatch "hi", Event.close],
       Outcome.uncaught "429 rate limit exceeded") :=
  ⟨by decide, by decide⟩

/-- C2 amended: in one-shot mode, any error raised by dispatching the
query — rate-limit/quota errors included — propagates uncaught out of the
Session Loop and the process exits with a non-zero status (the teardown
still runs as the context managers unwind). -/
theorem one_shot_dispatch_error_propagates {R : Type}
    (agent : String → Except String R) (dumps : R → Option String)
    (toStr : R → String) (inputs : List String) (q e : String)
    (hq : strStrip q ≠ "") (he : agent (strStrip q) = Except.error e) :
    runAgent (some q) agent dumps toStr inputs =
      ([Event.dispatch (strStrip q), Event.close], Outcome.uncaught e)
    ∧ (runAgent (some q) agent dumps toStr inputs).2.exitCode ≠ 0 := by
  constructor
  · simp [runAgent, hq, he]
  · simp [runAgent, hq, he, Outcome.exitCode]

/-- Witness for the amended C2 at a concrete quota error. -/
theorem one_shot_dispatch_error_propagates_witness :
    strStrip "hi" ≠ ""
    ∧ runAgent (some "hi")
        (fun _ => (Except.error "quota exceeded" : Except String Unit))
        (fun _ => none) (fun _ => "") [] =
      ([Event.dispatch (strStrip "hi"), Event.close],
       Outcome.uncaught "quota exceeded")
    ∧ (runAgent (some "hi")
        (fun _ => (Except.error "quota exceeded" : Except String Unit))
        (fun _ => none) (fun _ => "") []).2.exitCode ≠ 0 :=
  ⟨by decide,
   (one_shot_dispatch_error_propagates (fun _ => Except.error "quota exceeded")
      (fun _ => none) (fun _ => "") [] "hi" "quota exceeded" (by decide) rfl).1,
   (one_shot_dispatch_error_propagates (fun _ => Except.error "quota exceeded")
      (fun _ => none) (fun _ => "") [] "hi" "quota exceeded" (by decide) rfl).2⟩

/-- C3 counterexample: a whitespace-only interactive line strips to the
empty query, yet the loop still dispatches it to the agent
(`Event.dispatch ""`), refuting "dispatches iff the stripped query is
non-empty and not the quit sentinel". -/
theorem interactive_blank_query_dispatched :
    strStrip "   " = ""
    ∧ (interactiveLoop (fun _ => (Except.ok () : Except String Unit))
        (fun _ => some "ok") (fun _ => "ok") ["   "]).1 =
      [Event.prompt, Event.dispatch "", Event.printOut "ok", Event.prompt,
       Event.printEOF] :=
  ⟨by decide, by decide⟩

/-- C3 amended: in interactive mode the loop dispatches every line whose
stripped, lowercased form is not "quit" — empty queries included; on the
quit sentinel it terminates without dispatching that input, and on
end-of-input it terminates without dispatching anything. -/
theorem interactive_dispatch_unless_quit {R : Type}
    (agent : String → Except String R) (dumps : R → Option String)
    (toStr : R → String) (line : String) (rest : List String) :
    (strLower (strStrip line) ≠ "quit" →
      ∃ evs out, interactiveLoop agent dumps toStr (line :: rest) =
        (Event.prompt :: Event.dispatch (strStrip line) :: evs, out))
    ∧ (strLower (strStrip line) = "quit" →
      interactiveLoop agent dumps toStr (line :: rest) =
        ([Event.prompt], Outcome.exit0))
    ∧ interactiveLoop agent dumps toStr [] =
        ([Event.prompt, Event.printEOF], Outcome.exit0) := by
  refine ⟨?_, ?_, by simp [interactiveLoop]⟩
  · intro hq
    simp only [interactiveLoop]
    rw [if_neg hq]
    cases hag : agent (strStrip line) with
    | error e =>
      dsimp only
      by_cases hrl : isRateLimitMsg e = true
      · rw [if_pos hrl]
        exact ⟨_, _, rfl⟩
      · rw [if_neg hrl]
        exact ⟨_, _, rfl⟩
    | ok r => exact ⟨_, _, rfl⟩
  · intro hq
    simp [interactiveLoop, hq]

/-- Witness for the amended C3: a non-quit line is dispatched and a
"quit" line terminates without dispatch. -/
theorem interactive_dispatch_unless_quit_witness :
    strLower (strStrip "hello") ≠ "quit"
    ∧ (∃ evs out,
        interactiveLoop (fun _ => (Except.ok () : Except String Unit))
          (fun _ => some "ok") (fun _ => "ok") ["hello"] =
        (Event.prompt :: Event.dispatch (strStrip "hello") :: evs, out))
    ∧ interactiveLoop (fun _ => (Except.ok () : Except String Unit))
        (fun _ => some "ok") (fun _ => "ok") ["Quit"] =
      ([Event.prompt], Outcome.exit0) :=
  ⟨by decide,
   (interactive_dispatch_unless_quit (fun _ => Except.ok ()) (fun _ => some "ok")
      (fun _ => "ok") "hello" []).1 (by decide),
   (interactive_dispatch_unless_quit (fun _ => Except.ok ()) (fun _ => some "ok")
      (fun _ => "ok") "Quit" []).2.1 (by decide)⟩

/-- C4: serialization never raises out of the Session Loop — when the
structured JSON form cannot be produced (`dumps r = none`), the response is
rendered as the plain string `toStr r` instead, and in both interactive and
one-shot modes the formatted output event is still emitted. -/
theorem serialization_never_raises {R : Type}
    (agent : String → Except String R) (dumps : R → Option String)
    (toStr : R → String) :
    (∀ r, dumps r = none → formatResponse dumps toStr r = toStr r)
    ∧ (∀ line rest r, strLower (strStrip line) ≠ "quit" →
        agent (strStrip line) = Except.ok r →
        interactiveLoop agent dumps toStr (line :: rest) =
          (Event.prompt :: Event.dispatch (strStrip line) ::
             Event.printOut (formatResponse dumps toStr r) ::
             (interactiveLoop agent dumps toStr rest).1,
           (interactiveLoop agent dumps toStr rest).2))
    ∧ (∀ q r, strStrip q ≠ "" → agent (strStrip q) = Except.ok r →
        runAgent (some q) agent dumps toStr [] =
          ([Event.dispatch (strStrip q),
            Event.printOut (formatResponse dumps toStr r), Event.close],
           Outcome.exit0)) := by
  refine ⟨?_, ?_, ?_⟩
  · intro r hr
    simp [formatResponse, hr]
  · intro line rest r hq hr
    simp [interactiveLoop, hq, hr]
  · intro q r hq hr
    simp [runAgent, hq, hr]

/-- Witness for C4: a response whose structured serialization fails is
still printed, as its plain string rendering. -/
theorem serialization_never_raises_witness :
    formatResponse (fun _ => (none : Option String)) (fun _ => "fallback") () =
      "fallback"
    ∧ runAgent (some "hi") (fun _ => (Except.ok () : Except String Unit))
        (fun _ => (none : Option String)) (fun _ => "fallback") [] =
      ([Event.dispatch (strStrip "hi"),
        Event.printOut (formatResponse (fun _ => (none : Option String))
          (fun _ => "fallback") ()), Event.close],
       Outcome.exit0) :=
  ⟨(serialization_never_raises (fun _ => (Except.ok () : Except String Unit))
      (fun _ => none) (fun _ => "fallback")).1 () rfl,
   (serialization_never_raises (fun _ => (Except.ok () : Except String Unit))
      (fun _ => none) (fun _ => "fallback")).2.2 "hi" () (by decide) rfl⟩

/-- C6: one-shot mode with a non-blank query on which the Agent succeeds
performs exactly one dispatch and exactly one formatted-output emission,
never reads from the interactive prompt, and exits with status 0. -/
theorem one_shot_single_pass {R : Type}
    (agent : String → Except String R) (dumps : R → Option String)
    (toStr : R → String) (inputs : List String) (q : String) (r : R)
    (hq : strStrip q ≠ "") (hr : agent (strStrip q) = Except.ok r) :
    (runAgent (some q) agent dumps toStr inputs).1.countP Event.isDispatchEv = 1
    ∧ (runAgent (some q) agent dumps toStr inputs).1.countP Event.isPrintOutEv = 1
    ∧ (runAgent (some q) agent dumps toStr inputs).1.countP Event.isPromptEv = 0
    ∧ (runAgent (some q) agent dumps toStr inputs).2.exitCode = 0 := by
  refine ⟨?_, ?_, ?_, ?_⟩ <;>
    simp [runAgent, hq, hr, Event.isDispatchEv, Event.isPrintOutEv,
      Event.isPromptEv, Outcome.exitCode]

/-- Witness for C6 at a concrete one-shot query. -/
theorem one_shot_single_pass_witness :
    strStrip "hi" ≠ ""
    ∧ (runAgent (some "hi") (fun _ => (Except.ok () : Except String Unit))
        (fun _ => some "ok") (fun _ => "ok") ["ignored"]).1.countP
        Event.isDispatchEv = 1
    ∧ (runAgent (some "hi") (fun _ => (Except.ok () : Except String Unit))
        (fun _ => some "ok") (fun _ => "ok") ["ignored"]).1.countP
        Event.isPromptEv = 0
    ∧ (runAgent (some "hi") (fun _ => (Except.ok () : Except String Unit))
        (fun _ => some "ok") (fun _ => "ok") ["ignored"]).2.exitCode = 0 :=
  ⟨by decide,
   (one_shot_single_pass (fun _ => Except.ok ()) (fun _ => some "ok")
      (fun _ => "ok") ["ignored"] "hi" () (by decide) rfl).1,
   (one_shot_single_pass (fun _ => Except.ok ()) (fun _ => some "ok")
      (fun _ => "ok") ["ignored"] "hi" () (by decide) rfl).2.2.1,
   (one_shot_single_pass (fun _ => Except.ok ()) (fun _ => some "ok")
      (fun _ => "ok") ["ignored"] "hi" () (by decide) rfl).2.2.2⟩

/-- C10: in one-shot mode with a query that strips to the empty string the
Agent is never dispatched, nothing is printed, and the run completes
cleanly with exit status 0 (only the teardown event occurs). -/
theorem one_shot_blank_query_clean {R : Type}
    (agent : String → Except String R) (dumps : R → Option String)
    (toStr : R → String) (inputs : List String) (q : String)
    (hq : strStrip q = "") :
    runAgent (some q) agent dumps toStr inputs = ([Event.close], Outcome.exit0)
    ∧ (runAgent (some q) agent dumps toStr inputs).1.countP Event.isDispatchEv = 0
    ∧ (runAgent (some q) agent dumps toStr inputs).1.countP Event.isPrintOutEv = 0
    ∧ (runAgent (some q) agent dumps toStr inputs).2.exitCode = 0 := by
  refine ⟨?_, ?_, ?_, ?_⟩ <;>
    simp [runAgent, hq, Event.isDispatchEv, Event.isPrintOutEv, Outcome.exitCode]

/-- Witness for C10 at a whitespace-only one-shot query. -/
theorem one_shot_blank_query_clean_witness :
    strStrip "   " = ""
    ∧ runAgent (some "   ") (fun _ => (Except.ok () : Except String Unit))
        (fun _ => some "ok") (fun _ => "ok") [] =
      ([Event.close], Outcome.exit0) :=
  ⟨by decide,
   (one_shot_blank_query_clean (fun _ => Except.ok ()) (fun _ => some "ok")
      (fun _ => "ok") [] "   " (by decide)).1⟩

/-- C8: session close is idempotent, leaves no open channel or running
child process, and every run of the session loop — one-shot or interactive,
on any input sequence, for any agent behavior (normal completion, explicit
quit, end-of-input, recoverable or fatal error) — performs the teardown
exactly once, as its final event. -/
theorem close_idempotent_all_exit_paths :
    (∀ s : SessState, s.close.close = s.close)
    ∧ (∀ s : SessState,
        s.close.channelOpen = false ∧ s.close.childRunning = false)
    ∧ (∀ (R : Type) (agent : String → Except String R)
        (dumps : R → Option String) (toStr : R → String)
        (onceArg : Option String) (inputs : List String),
        (runAgent onceArg agent dumps toStr inputs).1.countP Event.isCloseEv = 1
        ∧ (runAgent onceArg agent dumps toStr inputs).1.getLast? =
            some Event.close) := by
  refine ⟨fun s => rfl, fun s => ⟨rfl, rfl⟩, ?_⟩
  intro R agent dumps toStr onceArg inputs
  have hbody : ∀ evs : List Event, Event.close ∉ evs →
      ((evs ++ [Event.close]).countP Event.isCloseEv = 1
        ∧ (evs ++ [Event.close]).getLast? = some Event.close) := by
    intro evs hmem
    constructor
    · rw [List.countP_append]
      have h0 : evs.countP Event.isCloseEv = 0 := by
        rw [List.countP_eq_zero]
        intro a ha hpa
        exact hmem ((isCloseEv_eq_true_iff a).mp hpa ▸ ha)
      simp [h0, Event.isCloseEv]
    · rw [List.getLast?_append]
      rfl
  cases onceArg with
  | none =>
    simp only [runAgent]
    refine hbody _ ?_
    intro hmem
    rcases List.mem_cons.mp hmem with h | h
    · exact absurd h (by simp)
    · exact close_not_mem_interactiveLoop agent dumps toStr inputs h
  | some once =>
    simp only [runAgent]
    by_cases hq : strStrip once = ""
    · rw [if_pos hq]
      exact hbody _ (by simp)
    · rw [if_neg hq]
      cases hag : agent (strStrip once) with
      | error e => exact hbody _ (by simp)
      | ok r => exact hbody _ (by simp)
